/-
  Verification of the CLT calculator core (Nyoxe/clt_calculator).

  Shallow embedding of the calculation pipeline in src/core/time.ts,
  src/core/calculations.ts and src/core/payroll.ts.  JavaScript numbers are
  modelled as exact rationals (ℚ); `Math.round` is modelled as
  round-half-up (`⌊x + 1/2⌋`), the behaviour the source documents
  ("Usa Math.round para arredondamento padrão (0.5 arredonda para cima)").
  JavaScript strings are Lean `String`s; the only falsiness test the code
  performs on them (`!entrada`) is emptiness.
-/
import Mathlib

namespace CLT

/-- Model of JavaScript `Math.round`: round half up, `⌊x + 1/2⌋`. -/
def jsRound (x : ℚ) : ℤ := ⌊x + 1/2⌋

/-- The ubiquitous source idiom `Math.round(x * 100) / 100`: round to 2
decimal places. -/
def round2 (x : ℚ) : ℚ := (jsRound (x * 100) : ℚ) / 100

/-- Digit-run parser used to model JavaScript `Number` on the "HH" / "mm"
components: `some n` when every character is a decimal digit (the empty run
gives `some 0`, as `Number("")` is `0`), `none` otherwise. -/
def parseDigits : List Char → Option Nat
  | [] => some 0
  | c :: rest =>
    if c.isDigit then
      (parseDigits rest).map (fun n => (c.toNat - '0'.toNat) * 10 ^ rest.length + n)
    else
      none

/-- Model of JavaScript `Number(s)` restricted to the decimal-digit strings
that occur in well-formed "HH:mm" components.  Out-of-domain strings (which
in JavaScript produce `NaN`, unrepresentable in ℚ) are mapped to 0; the
source documents malformed times as the caller's responsibility. -/
def jsNumber (s : String) : ℚ := ((parseDigits s.data).getD 0 : ℚ)

/-- Splitting a character list on ':' — the model of
`String.prototype.split(':')`, written with structural recursion. -/
def splitColon : List Char → List (List Char)
  | [] => [[]]
  | c :: rest =>
    match splitColon rest with
    | [] => [[]]
    | g :: gs => if c = ':' then [] :: g :: gs else (c :: g) :: gs

/-- `parseHourToMinutes` (src/core/time.ts): splits on ':' and returns
`hours * 60 + minutes`.  A missing minutes component (`parts[1]` would be
`undefined` in JavaScript, so `Number(undefined)` is `NaN`) is mapped to 0
in the model. -/
def parseHourToMinutes (time : String) : ℚ :=
  let parts := (splitColon time.data).map (fun l => String.mk l)
  let hours := jsNumber (parts.getD 0 "")
  let minutes := jsNumber (parts.getD 1 "")
  hours * 60 + minutes

/-- `calculateWorkedMinutes` (src/core/time.ts): span minus break,
clamped at zero via `Math.max(0, ·)`. -/
def calculateWorkedMinutes (entrada saida : String) (intervaloHoras : ℚ) : ℚ :=
  let entradaMinutes := parseHourToMinutes entrada
  let saidaMinutes := parseHourToMinutes saida
  let intervaloMinutes := intervaloHoras * 60
  let totalMinutes := saidaMinutes - entradaMinutes
  let workedMinutes := totalMinutes - intervaloMinutes
  max 0 workedMinutes

/-- `minutesToDecimalHours` (src/core/time.ts): divide by 60, round to two
decimal places. -/
def minutesToDecimalHours (minutes : ℚ) : ℚ :=
  round2 (minutes / 60)

/-- `DailyHoursResult` (src/core/types.ts). -/
structure DailyHoursResult where
  horasNormais : ℚ
  horasExtra50 : ℚ
  horasExtra100 : ℚ
  deriving Repr, DecidableEq

/-- `calculateDailyResult` (src/core/calculations.ts, lines 50-108). -/
def calculateDailyResult (entrada saida : String) (intervaloHoras : ℚ)
    (ehFeriado ehFolga : Bool) (jornadaPadraoHoras : ℚ) : DailyHoursResult :=
  -- `if (!entrada || !saida)` — the only falsy string is the empty one
  if entrada = "" ∨ saida = "" then
    { horasNormais := 0, horasExtra50 := 0, horasExtra100 := 0 }
  else
    let minutosTrabalhadosTotal := calculateWorkedMinutes entrada saida intervaloHoras
    let horasTrabalhadasTotal := minutesToDecimalHours minutosTrabalhadosTotal
    if ehFeriado then
      { horasNormais := 0, horasExtra50 := 0, horasExtra100 := horasTrabalhadasTotal }
    else if ehFolga then
      { horasNormais := 0, horasExtra50 := horasTrabalhadasTotal, horasExtra100 := 0 }
    else if horasTrabalhadasTotal ≤ jornadaPadraoHoras then
      { horasNormais := horasTrabalhadasTotal, horasExtra50 := 0, horasExtra100 := 0 }
    else
      { horasNormais := jornadaPadraoHoras
        horasExtra50 := horasTrabalhadasTotal - jornadaPadraoHoras
        horasExtra100 := 0 }

/-- `calculateDSR` (src/core/calculations.ts, lines 136-159). -/
def calculateDSR (horasExtra50Total horasExtra100Total valorHoraExtra50
    valorHoraExtra100 diasRepouso diasUteis : ℚ) : ℚ :=
  let valorHorasExtras50 := horasExtra50Total * valorHoraExtra50
  let valorHorasExtras100 := horasExtra100Total * valorHoraExtra100
  let valorTotalHorasExtras := valorHorasExtras50 + valorHorasExtras100
  if diasUteis = 0 ∨ diasRepouso = 0 then 0
  else
    let dsr := valorTotalHorasExtras * (diasRepouso / diasUteis)
    round2 dsr

/-- `calculateINSS` (src/core/calculations.ts, lines 292-317): four-branch
progressive schedule with a cap above 7786.02. -/
def calculateINSS (valorBruto : ℚ) : ℚ :=
  if valorBruto ≤ 1412.00 then
    valorBruto * 0.075
  else if valorBruto ≤ 2666.68 then
    1412.00 * 0.075 + (valorBruto - 1412.00) * 0.09
  else if valorBruto ≤ 4000.03 then
    1412.00 * 0.075 + (2666.68 - 1412.00) * 0.09 + (valorBruto - 2666.68) * 0.12
  else if valorBruto ≤ 7786.02 then
    1412.00 * 0.075 + (2666.68 - 1412.00) * 0.09 + (4000.03 - 2666.68) * 0.12
      + (valorBruto - 4000.03) * 0.14
  else
    1412.00 * 0.075 + (2666.68 - 1412.00) * 0.09 + (4000.03 - 2666.68) * 0.12
      + (7786.02 - 4000.03) * 0.14

/-- `WeekDay` (src/core/types.ts). -/
inductive WeekDay where
  | segunda | terca | quarta | quinta | sexta | sabado | domingo
  deriving Repr, DecidableEq

/-- `Settings` (src/core/types.ts).  The `escala` field has the single
variant `'6x1'` and is modelled as `Unit`. -/
structure Settings where
  salarioMensal : ℚ
  horaEntradaPadrao : String
  horaSaidaPadrao : String
  intervaloPadraoHoras : ℚ
  folgaPadrao : WeekDay
  escala : Unit
  deriving Repr, DecidableEq

/-- `DayRecord` (src/core/types.ts).  The `date` field is a calendar
identity key never read by any of the calculation functions, so it is
omitted from the embedding. -/
structure DayRecord where
  entrada : String
  saida : String
  intervaloHoras : ℚ
  ehFolga : Bool
  ehFeriado : Bool
  deriving Repr, DecidableEq

/-- `MonthlySummary` (src/core/types.ts). -/
structure MonthlySummary where
  horasNormais : ℚ
  horasExtra50 : ℚ
  horasExtra100 : ℚ
  dsrTotal : ℚ
  valorBruto : ℚ
  descontoINSS : ℚ
  valorLiquido : ℚ
  deriving Repr, DecidableEq

/-- The accumulator state of the `for (const day of days)` loop in
`calculateMonthlySummary`: bucket totals plus the two day-type counters. -/
structure SummaryAcc where
  horasNormaisTotal : ℚ
  horasExtra50Total : ℚ
  horasExtra100Total : ℚ
  diasRepouso : ℚ
  diasUteis : ℚ
  deriving Repr, DecidableEq

/-- One iteration of the accumulation loop in `calculateMonthlySummary`
(src/core/calculations.ts, lines 209-229). -/
def summaryStep (jornadaPadraoHoras : ℚ) (acc : SummaryAcc) (day : DayRecord) :
    SummaryAcc :=
  let resultado := calculateDailyResult day.entrada day.saida day.intervaloHoras
    day.ehFeriado day.ehFolga jornadaPadraoHoras
  { horasNormaisTotal := acc.horasNormaisTotal + resultado.horasNormais
    horasExtra50Total := acc.horasExtra50Total + resultado.horasExtra50
    horasExtra100Total := acc.horasExtra100Total + resultado.horasExtra100
    diasRepouso := if day.ehFolga ∨ day.ehFeriado then acc.diasRepouso + 1 else acc.diasRepouso
    diasUteis := if day.ehFolga ∨ day.ehFeriado then acc.diasUteis else acc.diasUteis + 1 }

/-- `calculateMonthlySummary` (src/core/calculations.ts, lines 186-269). -/
def calculateMonthlySummary (days : List DayRecord) (settings : Settings) :
    MonthlySummary :=
  let jornadaPadraoHoras : ℚ := 220 / 30
  let valorHora := settings.salarioMensal / 220
  let valorHoraExtra50 := valorHora * 1.5
  let valorHoraExtra100 := valorHora * 2.0
  let acc := days.foldl (summaryStep jornadaPadraoHoras)
    { horasNormaisTotal := 0, horasExtra50Total := 0, horasExtra100Total := 0
      diasRepouso := 0, diasUteis := 0 }
  let horasNormaisTotal := round2 acc.horasNormaisTotal
  let horasExtra50Total := round2 acc.horasExtra50Total
  let horasExtra100Total := round2 acc.horasExtra100Total
  let dsrTotal := calculateDSR horasExtra50Total horasExtra100Total
    valorHoraExtra50 valorHoraExtra100 acc.diasRepouso acc.diasUteis
  let valorHorasExtras50 := horasExtra50Total * valorHoraExtra50
  let valorHorasExtras100 := horasExtra100Total * valorHoraExtra100
  let valorBruto := settings.salarioMensal + valorHorasExtras50 + valorHorasExtras100 + dsrTotal
  let descontoINSS := calculateINSS valorBruto
  let valorLiquido := valorBruto - descontoINSS
  { horasNormais := horasNormaisTotal
    horasExtra50 := horasExtra50Total
    horasExtra100 := horasExtra100Total
    dsrTotal := round2 dsrTotal
    valorBruto := round2 valorBruto
    descontoINSS := round2 descontoINSS
    valorLiquido := round2 valorLiquido }

/-- `calculateHourlyValue` (src/core/payroll.ts, lines 44-47). -/
def calculateHourlyValue (salarioMensal : ℚ) : ℚ :=
  let valorHora := salarioMensal / 220
  round2 valorHora

/-- The return record of `calculateMonthlyPayroll` (src/core/payroll.ts). -/
structure PayrollResult where
  bruto : ℚ
  inss : ℚ
  liquido : ℚ
  deriving Repr, DecidableEq

/-- `calculateMonthlyPayroll` (src/core/payroll.ts, lines 140-175).  The
optional `descontoINSS?` parameter is modelled as `Option ℚ`; the source's
`descontoINSS !== undefined` test is the `some` case. -/
def calculateMonthlyPayroll (monthSummary : MonthlySummary) (salarioMensal : ℚ)
    (descontoINSS : Option ℚ := none) : PayrollResult :=
  let valorHora := calculateHourlyValue salarioMensal
  let valorHoraExtra50 := valorHora * 1.5
  let valorHoraExtra100 := valorHora * 2.0
  let valorHorasExtras50 := monthSummary.horasExtra50 * valorHoraExtra50
  let valorHorasExtras100 := monthSummary.horasExtra100 * valorHoraExtra100
  let valorBruto := salarioMensal + valorHorasExtras50 + valorHorasExtras100
    + monthSummary.dsrTotal
  let inss := match descontoINSS with
    | some v => v
    | none => monthSummary.descontoINSS
  let valorLiquido := valorBruto - inss
  { bruto := round2 valorBruto
    inss := round2 inss
    liquido := round2 valorLiquido }

/-- Reference definition of the progressive INSS schedule, following the
spec's words (§4.5): each bracket's marginal rate applied only to the slice
of gross falling inside that bracket, with the slice above 7786.02
contributing nothing (the cap). -/
def referenceINSS (gross : ℚ) : ℚ :=
  0.075 * max 0 (min gross 1412.00)
    + 0.09 * max 0 (min gross 2666.68 - 1412.00)
    + 0.12 * max 0 (min gross 4000.03 - 2666.68)
    + 0.14 * max 0 (min gross 7786.02 - 4000.03)

/-! ### Helper lemmas -/

theorem jsRound_intCast (n : ℤ) : jsRound (n : ℚ) = n := by
  unfold jsRound
  rw [add_comm, Int.floor_add_int]
  norm_num

theorem round2_idem (x : ℚ) : round2 (round2 x) = round2 x := by
  unfold round2
  rw [div_mul_cancel₀ _ (by norm_num : (100 : ℚ) ≠ 0), jsRound_intCast]

theorem round2_zero : round2 0 = 0 := by
  norm_num [round2, jsRound]

/-- `calculateDSR` already returns a two-decimal value: it is either 0 or a
`round2` application, so re-rounding it is the identity. -/
theorem round2_calculateDSR (h50 h100 r50 r100 rd wd : ℚ) :
    round2 (calculateDSR h50 h100 r50 r100 rd wd) =
      calculateDSR h50 h100 r50 r100 rd wd := by
  unfold calculateDSR
  split_ifs
  · exact round2_zero
  · exact round2_idem _

theorem parse_0800 : parseHourToMinutes "08:00" = 480 := by
  have h0 : ('0').toNat = 48 := by decide
  have h8 : ('8').toNat = 56 := by decide
  simp +decide only [parseHourToMinutes, splitColon, jsNumber, parseDigits,
    String.data, h0, h8]
  norm_num

theorem parse_1700 : parseHourToMinutes "17:00" = 1020 := by
  have h0 : ('0').toNat = 48 := by decide
  have h1 : ('1').toNat = 49 := by decide
  have h7 : ('7').toNat = 55 := by decide
  simp +decide only [parseHourToMinutes, splitColon, jsNumber, parseDigits,
    String.data, h0, h1, h7]
  norm_num

theorem parse_1800 : parseHourToMinutes "18:00" = 1080 := by
  have h0 : ('0').toNat = 48 := by decide
  have h1 : ('1').toNat = 49 := by decide
  have h8 : ('8').toNat = 56 := by decide
  simp +decide only [parseHourToMinutes, splitColon, jsNumber, parseDigits,
    String.data, h0, h1, h8]
  norm_num

/-! ### Claim theorems -/

/-- Claim C4: `calculateDSR` returns the two-decimal rounding of
`(hours50×rate50 + hours100×rate100) × (restDays / workingDays)`, except
that it returns exactly 0 whenever `workingDays = 0` or `restDays = 0`; no
division error is ever raised (the function is total). -/
theorem calculateDSR_spec (h50 h100 r50 r100 rd wd : ℚ) :
    calculateDSR h50 h100 r50 r100 rd wd =
      if wd = 0 ∨ rd = 0 then 0
      else round2 ((h50 * r50 + h100 * r100) * (rd / wd)) := rfl

/-- Claim C5 (counterexample): `calculateINSS(2666.68)` is not `228.69`,
refuting the claimed second sample value. -/
theorem calculateINSS_2666_68_ne_228_69 :
    calculateINSS (2666.68 : ℚ) ≠ 228.69 := by
  norm_num [calculateINSS]

/-- Claim C5 (amended): `calculateINSS(1412.00) = 105.90` and
`calculateINSS(2666.68) = 218.8212` — the first bracket's rate on 1412.00,
and the exact (unrounded) sum of the first two brackets' contributions,
`105.90 + 1254.68 × 0.09`. -/
theorem calculateINSS_sample_values :
    calculateINSS (1412.00 : ℚ) = 105.90 ∧
      calculateINSS (2666.68 : ℚ) = 218.8212 := by
  constructor <;> norm_num [calculateINSS]

/-- Claim C7: for all clock strings and break durations,
`calculateWorkedMinutes` equals
`max 0 (parseHourToMinutes saida − parseHourToMinutes entrada − intervalo×60)`,
is never negative, and (being a total function) never raises an error. -/
theorem calculateWorkedMinutes_spec (entrada saida : String) (intervaloHoras : ℚ) :
    calculateWorkedMinutes entrada saida intervaloHoras =
        max 0 (parseHourToMinutes saida - parseHourToMinutes entrada
          - intervaloHoras * 60) ∧
      0 ≤ calculateWorkedMinutes entrada saida intervaloHoras :=
  ⟨rfl, le_max_left _ _⟩

/-- Claim C1: `calculateDailyResult` returns all zeros when either clock
string is empty; on a holiday all worked hours go to `horasExtra100`
(regardless of the rest-day flag); on a non-holiday rest day all worked
hours go to `horasExtra50`; on an ordinary day `horasNormais` is the
minimum of worked hours and the standard daily hours, `horasExtra50` the
excess clamped at zero, and `horasExtra100` is zero. -/
theorem calculateDailyResult_spec (entrada saida : String) (intervaloHoras : ℚ)
    (ehFeriado ehFolga : Bool) (jornadaPadraoHoras : ℚ) :
    calculateDailyResult entrada saida intervaloHoras ehFeriado ehFolga jornadaPadraoHoras =
      (if entrada = "" ∨ saida = "" then
        { horasNormais := 0, horasExtra50 := 0, horasExtra100 := 0 }
      else
        let workedHours := minutesToDecimalHours
          (calculateWorkedMinutes entrada saida intervaloHoras)
        if ehFeriado then
          { horasNormais := 0, horasExtra50 := 0, horasExtra100 := workedHours }
        else if ehFolga then
          { horasNormais := 0, horasExtra50 := workedHours, horasExtra100 := 0 }
        else
          { horasNormais := min workedHours jornadaPadraoHoras
            horasExtra50 := max 0 (workedHours - jornadaPadraoHoras)
            horasExtra100 := 0 }) := by
  unfold calculateDailyResult
  by_cases h1 : entrada = "" ∨ saida = ""
  · simp [h1]
  · simp only [h1, if_neg, if_false]
    cases ehFeriado
    · cases ehFolga
      · simp only [Bool.false_eq_true, if_false]
        set w := minutesToDecimalHours (calculateWorkedMinutes entrada saida intervaloHoras)
          with hw
        rcases le_or_lt w jornadaPadraoHoras with hle | hlt
        · rw [if_pos hle, min_eq_left hle, max_eq_left (by linarith)]
        · rw [if_neg (not_le.mpr hlt), min_eq_right hlt.le, max_eq_right (by linarith)]
      · simp
    · simp

/-- Claim C9: whenever both clock strings are non-empty, the three buckets
of `calculateDailyResult` sum exactly to the day's worked hours — the
classification never creates or loses hours, in every branch. -/
theorem calculateDailyResult_conserves (entrada saida : String) (intervaloHoras : ℚ)
    (ehFeriado ehFolga : Bool) (jornadaPadraoHoras : ℚ)
    (h1 : entrada ≠ "") (h2 : saida ≠ "") :
    (calculateDailyResult entrada saida intervaloHoras ehFeriado ehFolga
        jornadaPadraoHoras).horasNormais
      + (calculateDailyResult entrada saida intervaloHoras ehFeriado ehFolga
        jornadaPadraoHoras).horasExtra50
      + (calculateDailyResult entrada saida intervaloHoras ehFeriado ehFolga
        jornadaPadraoHoras).horasExtra100
    = minutesToDecimalHours (calculateWorkedMinutes entrada saida intervaloHoras) := by
  unfold calculateDailyResult
  rw [if_neg (by simp [h1, h2])]
  cases ehFeriado <;> cases ehFolga <;> simp
  split_ifs <;> ring

/-- Witness for claim C9 at a concrete ordinary day: "08:00" to "17:00"
with a one-hour break sums to 8 worked hours across the buckets. -/
theorem calculateDailyResult_conserves_witness :
    ("08:00" : String) ≠ "" ∧ ("17:00" : String) ≠ "" ∧
      (calculateDailyResult "08:00" "17:00" 1 false false (220 / 30)).horasNormais
          + (calculateDailyResult "08:00" "17:00" 1 false false (220 / 30)).horasExtra50
          + (calculateDailyResult "08:00" "17:00" 1 false false (220 / 30)).horasExtra100
        = minutesToDecimalHours (calculateWorkedMinutes "08:00" "17:00" 1) :=
  ⟨by decide, by decide,
    calculateDailyResult_conserves "08:00" "17:00" 1 false false (220 / 30)
      (by decide) (by decide)⟩

set_option maxHeartbeats 2000000 in
/-- Claim C6: the INSS withholding schedule is monotone — a strictly larger
gross never yields a strictly smaller withholding. -/
theorem calculateINSS_monotone (gross1 gross2 : ℚ) (h : gross1 < gross2) :
    calculateINSS gross1 ≤ calculateINSS gross2 := by
  unfold calculateINSS
  split_ifs <;> linarith

/-- Witness for claim C6 at a concrete pair of gross values. -/
theorem calculateINSS_monotone_witness :
    calculateINSS (1000 : ℚ) ≤ calculateINSS (2000 : ℚ) :=
  calculateINSS_monotone 1000 2000 (by norm_num)

set_option maxHeartbeats 2000000 in
/-- Claim C2: for nonnegative gross, `calculateINSS` equals the
slice-by-slice progressive reference schedule `referenceINSS` (marginal
rate applied only to the slice of gross in each bracket, lower brackets
fully taxed), and above 7786.02 the result is capped at
`calculateINSS 7786.02`.  The embedding contains no rounding, matching the
source function. -/
theorem calculateINSS_progressive (gross : ℚ) (h : 0 ≤ gross) :
    calculateINSS gross = referenceINSS gross ∧
      ((7786.02 : ℚ) < gross → calculateINSS gross = calculateINSS 7786.02) := by
  constructor
  · unfold calculateINSS referenceINSS
    split_ifs with h1 h2 h3 h4
    · rw [min_eq_left h1, min_eq_left (by linarith : gross ≤ (2666.68 : ℚ)),
        min_eq_left (by linarith : gross ≤ (4000.03 : ℚ)),
        min_eq_left (by linarith : gross ≤ (7786.02 : ℚ)),
        max_eq_right h, max_eq_left (by linarith), max_eq_left (by linarith),
        max_eq_left (by linarith)]
      ring
    · rw [min_eq_right (by linarith : (1412.00 : ℚ) ≤ gross), min_eq_left h2,
        min_eq_left (by linarith : gross ≤ (4000.03 : ℚ)),
        min_eq_left (by linarith : gross ≤ (7786.02 : ℚ)),
        max_eq_right (by norm_num), max_eq_right (by linarith),
        max_eq_left (by linarith), max_eq_left (by linarith)]
      ring
    · rw [min_eq_right (by linarith : (1412.00 : ℚ) ≤ gross),
        min_eq_right (by linarith : (2666.68 : ℚ) ≤ gross), min_eq_left h3,
        min_eq_left (by linarith : gross ≤ (7786.02 : ℚ)),
        max_eq_right (by norm_num), max_eq_right (by norm_num),
        max_eq_right (by linarith), max_eq_left (by linarith)]
      ring
    · rw [min_eq_right (by linarith : (1412.00 : ℚ) ≤ gross),
        min_eq_right (by linarith : (2666.68 : ℚ) ≤ gross),
        min_eq_right (by linarith : (4000.03 : ℚ) ≤ gross), min_eq_left h4,
        max_eq_right (by norm_num), max_eq_right (by norm_num),
        max_eq_right (by norm_num), max_eq_right (by linarith)]
      ring
    · rw [min_eq_right (by linarith : (1412.00 : ℚ) ≤ gross),
        min_eq_right (by linarith : (2666.68 : ℚ) ≤ gross),
        min_eq_right (by linarith : (4000.03 : ℚ) ≤ gross),
        min_eq_right (by linarith : (7786.02 : ℚ) ≤ gross),
        max_eq_right (by norm_num), max_eq_right (by norm_num),
        max_eq_right (by norm_num), max_eq_right (by norm_num)]
      ring
  · intro hcap
    unfold calculateINSS
    split_ifs <;> linarith

/-- Witness for claim C2 at gross 8000 (above the cap). -/
theorem calculateINSS_progressive_witness :
    calculateINSS (8000 : ℚ) = referenceINSS (8000 : ℚ) ∧
      calculateINSS (8000 : ℚ) = calculateINSS (7786.02 : ℚ) :=
  ⟨(calculateINSS_progressive 8000 (by norm_num)).1,
    (calculateINSS_progressive 8000 (by norm_num)).2 (by norm_num)⟩

/-- Claim C8: every field of the summary produced by
`calculateMonthlySummary` is already rounded to two decimal places:
re-rounding any field is the identity. -/
theorem calculateMonthlySummary_rounded (days : List DayRecord) (settings : Settings) :
    round2 (calculateMonthlySummary days settings).horasNormais
        = (calculateMonthlySummary days settings).horasNormais ∧
      round2 (calculateMonthlySummary days settings).horasExtra50
        = (calculateMonthlySummary days settings).horasExtra50 ∧
      round2 (calculateMonthlySummary days settings).horasExtra100
        = (calculateMonthlySummary days settings).horasExtra100 ∧
      round2 (calculateMonthlySummary days settings).dsrTotal
        = (calculateMonthlySummary days settings).dsrTotal ∧
      round2 (calculateMonthlySummary days settings).valorBruto
        = (calculateMonthlySummary days settings).valorBruto ∧
      round2 (calculateMonthlySummary days settings).descontoINSS
        = (calculateMonthlySummary days settings).descontoINSS ∧
      round2 (calculateMonthlySummary days settings).valorLiquido
        = (calculateMonthlySummary days settings).valorLiquido :=
  ⟨round2_idem _, round2_idem _, round2_idem _, round2_idem _, round2_idem _,
    round2_idem _, round2_idem _⟩

/-- The `valorBruto` field of the summary, expressed through the summary's
own (already rounded) hour totals and DSR. -/
theorem summary_valorBruto_shape (days : List DayRecord) (settings : Settings) :
    (calculateMonthlySummary days settings).valorBruto =
      round2 (settings.salarioMensal
        + (calculateMonthlySummary days settings).horasExtra50
          * (settings.salarioMensal / 220 * 1.5)
        + (calculateMonthlySummary days settings).horasExtra100
          * (settings.salarioMensal / 220 * 2.0)
        + (calculateMonthlySummary days settings).dsrTotal) := by
  unfold calculateMonthlySummary
  simp only []
  rw [round2_calculateDSR]

/-- The `bruto` field of `calculateMonthlyPayroll`, in closed form: it is
built from the rounded hourly rate `round2 (sal / 220)`. -/
theorem payroll_bruto_shape (S : MonthlySummary) (sal : ℚ) (o : Option ℚ) :
    (calculateMonthlyPayroll S sal o).bruto =
      round2 (sal + S.horasExtra50 * (round2 (sal / 220) * 1.5)
        + S.horasExtra100 * (round2 (sal / 220) * 2.0) + S.dsrTotal) := rfl

/-- Evaluation of the daily classifier on the concrete rest day used in the
claim C3 counterexample. -/
theorem c3_day_eval :
    calculateDailyResult "08:00" "18:00" 0 false true (220 / 30) =
      { horasNormais := 0, horasExtra50 := 10, horasExtra100 := 0 } := by
  unfold calculateDailyResult
  rw [if_neg (by decide)]
  norm_num [calculateWorkedMinutes, minutesToDecimalHours, parse_0800, parse_1800,
    round2, jsRound]

set_option maxHeartbeats 1000000 in
/-- Evaluation of the aggregator on a one-day month (a worked rest day,
10 hours) with monthly salary 2201: the unrounded hourly rate
2201/220 = 10.004545… makes `valorBruto` equal 2351.07. -/
theorem c3_sum_eval :
    calculateMonthlySummary
        [{ entrada := "08:00", saida := "18:00", intervaloHoras := 0,
           ehFolga := true, ehFeriado := false }]
        { salarioMensal := 2201, horaEntradaPadrao := "08:00",
          horaSaidaPadrao := "17:00", intervaloPadraoHoras := 1,
          folgaPadrao := WeekDay.domingo, escala := () } =
      { horasNormais := 0, horasExtra50 := 10, horasExtra100 := 0,
        dsrTotal := 0, valorBruto := 2351.07, descontoINSS := 190.42,
        valorLiquido := 2160.65 } := by
  simp only [calculateMonthlySummary, summaryStep, List.foldl, c3_day_eval]
  norm_num [calculateDSR, calculateINSS, round2, jsRound, MonthlySummary.mk.injEq]

/-- Claim C3 (counterexample): with monthly salary 2201 and a single worked
rest day of 10 hours, the aggregator's `valorBruto` is 2351.07 (computed
with the unrounded hourly rate 2201/220), but `calculateMonthlyPayroll`
recomputes gross with the rounded hourly rate `round2 (2201/220) = 10.00`
and returns `bruto = 2351.00`. -/
theorem payroll_bruto_counterexample :
    (calculateMonthlyPayroll
        (calculateMonthlySummary
          [{ entrada := "08:00", saida := "18:00", intervaloHoras := 0,
             ehFolga := true, ehFeriado := false }]
          { salarioMensal := 2201, horaEntradaPadrao := "08:00",
            horaSaidaPadrao := "17:00", intervaloPadraoHoras := 1,
            folgaPadrao := WeekDay.domingo, escala := () })
        (2201 : ℚ) none).bruto ≠
      (calculateMonthlySummary
        [{ entrada := "08:00", saida := "18:00", intervaloHoras := 0,
           ehFolga := true, ehFeriado := false }]
        { salarioMensal := 2201, horaEntradaPadrao := "08:00",
          horaSaidaPadrao := "17:00", intervaloPadraoHoras := 1,
          folgaPadrao := WeekDay.domingo, escala := () }).valorBruto := by
  rw [c3_sum_eval]
  norm_num [calculateMonthlyPayroll, calculateHourlyValue, round2, jsRound]

/-- Claim C3 (amended): the payroll recomputation of gross agrees with the
aggregator's `valorBruto` whenever the exact hourly rate
`salarioMensal / 220` is already a two-decimal value (so that the rounded
rate used by `calculateMonthlyPayroll` coincides with the unrounded rate
used by `calculateMonthlySummary`). -/
theorem payroll_bruto_matches (days : List DayRecord) (settings : Settings)
    (h : round2 (settings.salarioMensal / 220) = settings.salarioMensal / 220) :
    (calculateMonthlyPayroll (calculateMonthlySummary days settings)
        settings.salarioMensal none).bruto =
      (calculateMonthlySummary days settings).valorBruto := by
  rw [payroll_bruto_shape, h, summary_valorBruto_shape]

/-- Witness for the amended claim C3: salary 2200 has the exact hourly rate
10.00, and the payroll `bruto` then reproduces the summary's `valorBruto`. -/
theorem payroll_bruto_matches_witness :
    round2 ((2200 : ℚ) / 220) = (2200 : ℚ) / 220 ∧
      (calculateMonthlyPayroll
          (calculateMonthlySummary
            [{ entrada := "08:00", saida := "18:00", intervaloHoras := 0,
               ehFolga := true, ehFeriado := false }]
            { salarioMensal := 2200, horaEntradaPadrao := "08:00",
              horaSaidaPadrao := "17:00", intervaloPadraoHoras := 1,
              folgaPadrao := WeekDay.domingo, escala := () })
          (2200 : ℚ) none).bruto =
        (calculateMonthlySummary
          [{ entrada := "08:00", saida := "18:00", intervaloHoras := 0,
             ehFolga := true, ehFeriado := false }]
          { salarioMensal := 2200, horaEntradaPadrao := "08:00",
            horaSaidaPadrao := "17:00", intervaloPadraoHoras := 1,
            folgaPadrao := WeekDay.domingo, escala := () }).valorBruto :=
  ⟨by norm_num [round2, jsRound],
    payroll_bruto_matches _ _ (by norm_num [round2, jsRound])⟩

/-- Claim C10: the `bruto` field of `calculateMonthlyPayroll` does not
depend on the optional `descontoINSS` override — any two override values
(including absence) yield the same `bruto` on the same summary and salary. -/
theorem calculateMonthlyPayroll_bruto_override_free (monthSummary : MonthlySummary)
    (salarioMensal : ℚ) (o1 o2 : Option ℚ) :
    (calculateMonthlyPayroll monthSummary salarioMensal o1).bruto =
      (calculateMonthlyPayroll monthSummary salarioMensal o2).bruto := rfl

end CLT
